import Mathlib

/-!
Verification development for the ai-image-worker repository.

The repository holds two near-identical JavaScript programs:
`src/index.js` (inline base64 image-API variant) and
`src/unnamed/part_000` (URL-return image-API variant).  Each program is a
linear pipeline: fetch latest post, generate an image, upload it, set it as
featured image, behind a minimal HTTP trigger with a shared secret.

We embed both programs shallowly.  JavaScript values reachable from
`JSON.parse` are modelled by `JSVal`; field and index access follow
JavaScript semantics (accessing a property of `null`/`undefined` raises a
TypeError, any other access yields `undefined` when absent).  Remote calls
are resolved through an `Oracle` supplying each collaborator's response,
and every embedded function returns its result together with the list of
remote calls it performed, so that theorems can speak about which external
calls a run makes.
-/

mutual

/-- JavaScript values, as reachable in this program: the results of
`JSON.parse` plus `undefined`.  Arrays and objects are spelt as mutual
inductives so that structural recursion stays simple.  Numbers are
modelled as integers: every number this program manipulates (ids, HTTP
statuses, lengths, timestamps) is integral. -/
inductive JSVal where
  | undefined : JSVal
  | null : JSVal
  | bool : Bool → JSVal
  | num : Int → JSVal
  | str : String → JSVal
  | arr : JSArr → JSVal
  | obj : JSObj → JSVal

/-- A JavaScript array: a list of `JSVal`. -/
inductive JSArr where
  | nil : JSArr
  | cons : JSVal → JSArr → JSArr

/-- A JavaScript object: an association list of string keys to `JSVal`,
first binding wins on lookup. -/
inductive JSObj where
  | nil : JSObj
  | cons : String → JSVal → JSObj → JSObj

end

instance : Inhabited JSVal := ⟨JSVal.undefined⟩

deriving instance DecidableEq for JSVal

/-- Number of elements of a JavaScript array. -/
def JSArr.length : JSArr → Nat
  | .nil => 0
  | .cons _ rest => rest.length + 1

/-- Element of a JavaScript array at an index, if present. -/
def JSArr.get? : JSArr → Nat → Option JSVal
  | .nil, _ => none
  | .cons v _, 0 => some v
  | .cons _ rest, n + 1 => rest.get? n

/-- First binding of a key in a JavaScript object. -/
def JSObj.lookup : JSObj → String → Option JSVal
  | .nil, _ => none
  | .cons k v rest, key => if k = key then some v else rest.lookup key

/-- JavaScript truthiness: `undefined`, `null`, `false`, `0` and the empty
string are falsy; every array and object (including `[]` and `\x7b\x7d`)
is truthy. -/
def JSVal.truthy : JSVal → Bool
  | .undefined => false
  | .null => false
  | .bool b => b
  | .num n => n != 0
  | .str s => s != ""
  | .arr _ => true
  | .obj _ => true

/-- Property access `v.f`.  On `undefined`/`null` it raises a TypeError
(modelled as an error message, as everywhere in this development errors
are their message strings).  Objects look the key up (absent keys give
`undefined`); arrays and strings expose `length`; any other access on a
primitive yields `undefined`. -/
def JSVal.getField : JSVal → String → Except String JSVal
  | .undefined, f =>
      .error ("Cannot read properties of undefined (reading " ++ "\x27" ++ f ++ "\x27" ++ ")")
  | .null, f =>
      .error ("Cannot read properties of null (reading " ++ "\x27" ++ f ++ "\x27" ++ ")")
  | .obj fields, f => .ok ((fields.lookup f).getD .undefined)
  | .arr xs, f => .ok (if f = "length" then .num (JSArr.length xs) else .undefined)
  | .str s, f => .ok (if f = "length" then .num s.length else .undefined)
  | .bool _, _ => .ok .undefined
  | .num _, _ => .ok .undefined

/-- Index access `v[i]` for a numeric literal index.  TypeError on
`undefined`/`null`; arrays index their elements, strings index their
characters, objects look up the decimal string key, other primitives give
`undefined`. -/
def JSVal.getIndex : JSVal → Nat → Except String JSVal
  | .undefined, i =>
      .error ("Cannot read properties of undefined (reading " ++ "\x27" ++ toString i ++ "\x27" ++ ")")
  | .null, i =>
      .error ("Cannot read properties of null (reading " ++ "\x27" ++ toString i ++ "\x27" ++ ")")
  | .arr xs, i => .ok ((JSArr.get? xs i).getD .undefined)
  | .str s, i => .ok (match s.toList.get? i with
      | some c => .str (String.mk [c])
      | none => .undefined)
  | .obj fields, i => .ok ((fields.lookup (toString i)).getD .undefined)
  | .bool _, _ => .ok .undefined
  | .num _, _ => .ok .undefined

/-- Comma-join a list of strings (JavaScript array `toString` separator). -/
def joinComma : List String → String
  | [] => ""
  | [s] => s
  | s :: rest => s ++ "," ++ joinComma rest

mutual

/-- JavaScript string coercion `String(v)`, as used by template-literal
interpolation: `undefined`/`null` print their names, arrays join their
elements with commas (with `null`/`undefined` elements printing empty),
objects print `[object Object]`. -/
def JSVal.toDisplay : JSVal → String
  | .undefined => "undefined"
  | .null => "null"
  | .bool true => "true"
  | .bool false => "false"
  | .num n => toString n
  | .str s => s
  | .arr xs => joinComma (JSArr.displayElems xs)
  | .obj _ => "[object Object]"

/-- Element strings of a JavaScript array for `toString`: `null` and
`undefined` elements display as the empty string. -/
def JSArr.displayElems : JSArr → List String
  | .nil => []
  | .cons .undefined rest => "" :: rest.displayElems
  | .cons .null rest => "" :: rest.displayElems
  | .cons v rest => v.toDisplay :: rest.displayElems

end

/-- Escape one character for a JSON string literal. -/
def jsonEscapeChar (c : Char) : String :=
  if c = '\\' then "\\\\"
  else if c = '"' then "\\\""
  else if c = '\n' then "\\n"
  else if c = '\r' then "\\r"
  else if c = '\t' then "\\t"
  else String.mk [c]

/-- Quote a string as a JSON string literal. -/
def jsonQuote (s : String) : String :=
  "\"" ++ String.join (s.toList.map jsonEscapeChar) ++ "\""

mutual

/-- `JSON.stringify` on a value: `none` models the `undefined` result
(an `undefined` value has no JSON representation and is dropped from
objects, while inside arrays it serialises as `null`). -/
def JSVal.stringifyCore : JSVal → Option String
  | .undefined => none
  | .null => some "null"
  | .bool true => some "true"
  | .bool false => some "false"
  | .num n => some (toString n)
  | .str s => some (jsonQuote s)
  | .arr xs => some ("[" ++ joinComma (JSArr.elemStrings xs) ++ "]")
  | .obj fields => some ("\x7b" ++ joinComma (JSObj.fieldStrings fields) ++ "\x7d")

/-- Serialised elements of an array; `undefined` elements become `null`. -/
def JSArr.elemStrings : JSArr → List String
  | .nil => []
  | .cons v rest => (JSVal.stringifyCore v).getD "null" :: rest.elemStrings

/-- Serialised `key:value` entries of an object; entries whose value has
no JSON representation are dropped. -/
def JSObj.fieldStrings : JSObj → List String
  | .nil => []
  | .cons k v rest =>
      match JSVal.stringifyCore v with
      | none => rest.fieldStrings
      | some sv => (jsonQuote k ++ ":" ++ sv) :: rest.fieldStrings

end

/-- Image bytes (`Buffer` in the source).  The program never inspects the
bytes it produces, so buffers are kept symbolic: just a record of where
they came from. -/
inductive Buffer where
  | fromBase64 : String → Buffer
  | fromArrayLike : JSArr → Buffer
  | fromArrayBuffer : String → Buffer

/-- One response from a remote collaborator, as the program consumes it:
`ok`/`status` from the HTTP layer, `text` the raw body text (used in
error messages and as downloaded bytes), and `body` the value the body
parses to as JSON (consulted only on paths where the source calls
`JSON.parse` / `res.json()` on it). -/
structure Response where
  ok : Bool
  status : Nat
  text : String
  body : JSVal

/-- The environment of one run: what each remote endpoint would answer.
`fetchPosts`, `genImage`, `uploadMedia`, `setFeatured` are the fixed
endpoints the program talks to; `download` answers a GET of an arbitrary
URL (the image URL the generation API returned); `now` is `Date.now()`. -/
structure Oracle where
  fetchPosts : Response
  genImage : Response
  download : String → Response
  uploadMedia : Response
  setFeatured : Response
  now : Nat

/-- One remote call the program performs, with the arguments that
identify it. -/
inductive Call where
  | fetchPosts : Call
  | genImage : String → Call
  | download : String → Call
  | uploadMedia : String → Call
  | setFeatured : JSVal → JSVal → Call
deriving DecidableEq

/-- Pipeline position of a call: the source performs them in this strict
order. -/
def Call.stepIdx : Call → Nat
  | .fetchPosts => 0
  | .genImage _ => 1
  | .download _ => 2
  | .uploadMedia _ => 3
  | .setFeatured _ _ => 4

/-- Whether a call is a media upload. -/
def Call.isUpload : Call → Bool
  | .uploadMedia _ => true
  | _ => false

/-- Whether a call is a featured-image update. -/
def Call.isSetFeatured : Call → Bool
  | .setFeatured _ _ => true
  | _ => false

/-- Whether a call is an image download. -/
def Call.isDownload : Call → Bool
  | .download _ => true
  | _ => false

/-- A trace follows the pipeline order with no step repeated: the
positions of consecutive calls strictly increase. -/
def TraceOrdered (t : List Call) : Prop :=
  List.Chain' (fun a b => a.stepIdx < b.stepIdx) t

instance (t : List Call) : Decidable (TraceOrdered t) := by
  unfold TraceOrdered; infer_instance

/-- The worker's terminal result (`\x7bok, postId, mediaId\x7d` in the
source).  `postId` and `mediaId` hold whatever JavaScript values the run
produced. -/
structure RunResult where
  ok : Bool
  postId : JSVal
  mediaId : JSVal

/-- `JSON.stringify` of a `RunResult` object literal: fields in insertion
order, fields whose value is `undefined` dropped. -/
def stringifyRunResult (r : RunResult) : String :=
  "\x7b\"ok\":" ++ (if r.ok then "true" else "false")
    ++ (match JSVal.stringifyCore r.postId with
        | none => ""
        | some s => ",\"postId\":" ++ s)
    ++ (match JSVal.stringifyCore r.mediaId with
        | none => ""
        | some s => ",\"mediaId\":" ++ s)
    ++ "\x7d"

/-- The HTTP response the trigger listener sends: status code (200 unless
set otherwise), the Content-Type header when one is set, and the body
text passed to `res.end`. -/
structure HttpResponse where
  status : Nat
  contentType : Option String
  body : String
deriving DecidableEq

/-- `wpApiJson(method, endpoint, body)`, identical in both source files:
on a non-ok response it throws an error embedding method, endpoint,
status and raw body text; on an ok response it returns the parsed JSON
body. -/
def wpApiJson (r : Response) (method endpoint : String) : Except String JSVal :=
  if !r.ok then
    .error ("WP API " ++ method ++ " " ++ endpoint ++ " " ++ toString r.status ++ ": " ++ r.text)
  else
    .ok r.body

/-- `setFeaturedImage(postId, mediaId)`, identical in both source files:
one POST through `wpApiJson` to the post's endpoint (the post id is
string-interpolated into the path) with body `\x7bfeatured_media: mediaId\x7d`. -/
def setFeaturedImage (o : Oracle) (postId mediaId : JSVal) :
    Except String JSVal × List Call :=
  (wpApiJson o.setFeatured "POST" ("/wp-json/wp/v2/posts/" ++ postId.toDisplay),
   [Call.setFeatured postId mediaId])

/-- `Buffer.from(v, base64)` on the value read out of the response JSON:
a string decodes, an array builds a byte buffer (encoding ignored), and
other values raise a TypeError.  (Node additionally accepts array-like
objects with a numeric `length`; the program never relies on that.) -/
def bufferFromBase64Arg : JSVal → Except String Buffer
  | .str s => .ok (Buffer.fromBase64 s)
  | .arr xs => .ok (Buffer.fromArrayLike xs)
  | _ => .error "The first argument must be of type string or an instance of Buffer, ArrayBuffer, or Array or an Array-like Object"

namespace IndexJs

/-- `callOpenAIImage(prompt)` from `src/index.js`: POST to the
generations endpoint (requesting `b64_json`); on a non-ok response throw
an error embedding status and body text; otherwise read
`data.data[0].b64_json` and base64-decode it. -/
def callOpenAIImage (o : Oracle) (prompt : String) :
    Except String Buffer × List Call :=
  (let res := o.genImage
   if !res.ok then
     .error ("OpenAI error " ++ toString res.status ++ ": " ++ res.text)
   else
     match res.body.getField "data" with
     | .error e => .error e
     | .ok d1 =>
       match d1.getIndex 0 with
       | .error e => .error e
       | .ok d2 =>
         match d2.getField "b64_json" with
         | .error e => .error e
         | .ok v => bufferFromBase64Arg v,
   [Call.genImage prompt])

/-- `getLatestPost()` from `src/index.js`: one GET through `wpApiJson`;
then `if (!posts.length) throw new Error(No posts found)`, and on the
truthy-length path return `posts[0]`. -/
def getLatestPost (o : Oracle) : Except String JSVal × List Call :=
  (match wpApiJson o.fetchPosts "GET" "/wp-json/wp/v2/posts?per_page=1&orderby=date&order=desc" with
   | .error e => .error e
   | .ok posts =>
     match posts.getField "length" with
     | .error e => .error e
     | .ok len =>
       if !len.truthy then .error "No posts found"
       else posts.getIndex 0,
   [Call.fetchPosts])

/-- `uploadImageToWP(buffer, filename)` from `src/index.js`: POST the
bytes; on a non-ok response throw an error embedding status and body
text; otherwise parse the body and return `data.id` with no check. -/
def uploadImageToWP (o : Oracle) (_buffer : Buffer) (filename : String) :
    Except String JSVal × List Call :=
  (let res := o.uploadMedia
   if !res.ok then
     .error ("WP media error " ++ toString res.status ++ ": " ++ res.text)
   else
     res.body.getField "id",
   [Call.uploadMedia filename])

/-- The prompt template of `src/index.js` applied to a title string. -/
def promptFor (title : String) : String :=
  "Photo-realistic daytime image for a blog post titled \"" ++ title ++
  "\". Show a modern private hire (PHV) saloon (Toyota Prius, Skoda Octavia, Kia Ceed), RHD, on a Manchester UK street. No text, no people, no logos."

/-- `runWorker()` from `src/index.js`: fetch the latest post, take
`post.title.rendered` with the `(no title)` fallback, build the prompt,
generate, upload under an `ai-taxi-<Date.now()>.png` name, set the
featured image, and return `\x7bok: true, postId, mediaId\x7d`. -/
def runWorker (o : Oracle) : Except String RunResult × List Call :=
  match getLatestPost o with
  | (.error e, t0) => (.error e, t0)
  | (.ok post, t0) =>
    match post.getField "title" with
    | .error e => (.error e, t0)
    | .ok tval =>
      match tval.getField "rendered" with
      | .error e => (.error e, t0)
      | .ok rend =>
        let title := if rend.truthy then rend else JSVal.str "(no title)"
        match post.getField "id" with
        | .error e => (.error e, t0)
        | .ok postId =>
          let prompt := promptFor title.toDisplay
          match callOpenAIImage o prompt with
          | (.error e, t1) => (.error e, t0 ++ t1)
          | (.ok image, t1) =>
            let filename := "ai-taxi-" ++ toString o.now ++ ".png"
            match uploadImageToWP o image filename with
            | (.error e, t2) => (.error e, t0 ++ t1 ++ t2)
            | (.ok mediaId, t2) =>
              match setFeaturedImage o postId mediaId with
              | (.error e, t3) => (.error e, t0 ++ t1 ++ t2 ++ t3)
              | (.ok _, t3) =>
                  (.ok ⟨true, postId, mediaId⟩, t0 ++ t1 ++ t2 ++ t3)

/-- The request handler of `src/index.js` (the callback passed to
`http.createServer`), on a request with the given parsed pathname and
`secret` query parameter: pathname `/run` checks the secret (403 on
mismatch, otherwise run the pipeline, 200 JSON on success, 500 with the
error message on failure); every other pathname answers the static
banner. -/
def server (workerSecret : String) (o : Oracle) (pathname : String)
    (secretParam : Option String) : HttpResponse × List Call :=
  if pathname = "/run" then
    if secretParam ≠ some workerSecret then
      (⟨403, none, "Forbidden: bad secret"⟩, [])
    else
      match runWorker o with
      | (.ok result, t) => (⟨200, some "application/json", stringifyRunResult result⟩, t)
      | (.error e, t) => (⟨500, none, e⟩, t)
  else
    (⟨200, some "text/plain", "AI Image Worker running. Use /run?secret=YOUR_SECRET"⟩, [])

end IndexJs

namespace Part000

/-- `callOpenAIImage(prompt)` from `src/unnamed/part_000` (URL-return
variant): POST to the generations endpoint; on a non-ok response throw
an error embedding status and body text; then guard
`!data.data || !data.data[0] || !data.data[0].url` (short-circuit, so a
falsy link stops before the next access) throwing the missing-URL error;
otherwise GET the URL (the value string-coerced, as `fetch` coerces its
argument), throw the download error when that response is not ok, and
return its body bytes. -/
def callOpenAIImage (o : Oracle) (prompt : String) :
    Except String Buffer × List Call :=
  let res := o.genImage
  if !res.ok then
    (.error ("OpenAI error " ++ toString res.status ++ ": " ++ res.text),
     [Call.genImage prompt])
  else
    match res.body.getField "data" with
    | .error e => (.error e, [Call.genImage prompt])
    | .ok d1 =>
      if !d1.truthy then
        (.error "OpenAI response missing image URL", [Call.genImage prompt])
      else
        match d1.getIndex 0 with
        | .error e => (.error e, [Call.genImage prompt])
        | .ok d2 =>
          if !d2.truthy then
            (.error "OpenAI response missing image URL", [Call.genImage prompt])
          else
            match d2.getField "url" with
            | .error e => (.error e, [Call.genImage prompt])
            | .ok d3 =>
              if !d3.truthy then
                (.error "OpenAI response missing image URL", [Call.genImage prompt])
              else
                let imageUrl := d3.toDisplay
                let imgRes := o.download imageUrl
                if !imgRes.ok then
                  (.error ("Failed to download image from OpenAI URL: " ++ toString imgRes.status),
                   [Call.genImage prompt, Call.download imageUrl])
                else
                  (.ok (Buffer.fromArrayBuffer imgRes.text),
                   [Call.genImage prompt, Call.download imageUrl])

/-- `getLatestPost()` from `src/unnamed/part_000`: one GET through
`wpApiJson`; `if (!Array.isArray(posts) || posts.length === 0)` throw
`No posts found`; otherwise return `posts[0]`. -/
def getLatestPost (o : Oracle) : Except String JSVal × List Call :=
  (match wpApiJson o.fetchPosts "GET" "/wp-json/wp/v2/posts?per_page=1&orderby=date&order=desc" with
   | .error e => .error e
   | .ok posts =>
     match posts with
     | .arr xs =>
       if xs.length = 0 then .error "No posts found"
       else .ok ((xs.get? 0).getD .undefined)
     | _ => .error "No posts found",
   [Call.fetchPosts])

/-- `uploadImageToWP(buffer, filename)` from `src/unnamed/part_000`:
POST the bytes; on a non-ok response throw an error embedding status and
body text; otherwise parse the body, throw `Media upload missing id`
when `!data.id`, and return `data.id`. -/
def uploadImageToWP (o : Oracle) (_buffer : Buffer) (filename : String) :
    Except String JSVal × List Call :=
  (let res := o.uploadMedia
   if !res.ok then
     .error ("WP media error " ++ toString res.status ++ ": " ++ res.text)
   else
     match res.body.getField "id" with
     | .error e => .error e
     | .ok idv =>
       if !idv.truthy then .error "Media upload missing id"
       else .ok idv,
   [Call.uploadMedia filename])

/-- The prompt template of `src/unnamed/part_000` applied to a title
string. -/
def promptFor (title : String) : String :=
  "Photo-realistic daytime image for a blog post titled \"" ++ title ++
  "\". Show a modern private hire (PHV) saloon (Toyota Prius, Skoda Octavia, Kia Ceed), right-hand drive, on a real Manchester UK street. No text, no people, no logos."

/-- `runWorker()` from `src/unnamed/part_000`: fetch the latest post,
take `(post.title && post.title.rendered) ? post.title.rendered :
(no title)`, build the prompt, generate, upload under an
`ai-taxi-<Date.now()>.png` name, set the featured image, and return
`\x7bok: true, postId, mediaId\x7d`. -/
def runWorker (o : Oracle) : Except String RunResult × List Call :=
  match getLatestPost o with
  | (.error e, t0) => (.error e, t0)
  | (.ok post, t0) =>
    match post.getField "title" with
    | .error e => (.error e, t0)
    | .ok tval =>
      match (if tval.truthy then tval.getField "rendered" else .ok tval) with
      | .error e => (.error e, t0)
      | .ok condV =>
        let title := if condV.truthy then condV else JSVal.str "(no title)"
        match post.getField "id" with
        | .error e => (.error e, t0)
        | .ok postId =>
          let prompt := promptFor title.toDisplay
          match callOpenAIImage o prompt with
          | (.error e, t1) => (.error e, t0 ++ t1)
          | (.ok imageBuffer, t1) =>
            let filename := "ai-taxi-" ++ toString o.now ++ ".png"
            match uploadImageToWP o imageBuffer filename with
            | (.error e, t2) => (.error e, t0 ++ t1 ++ t2)
            | (.ok mediaId, t2) =>
              match setFeaturedImage o postId mediaId with
              | (.error e, t3) => (.error e, t0 ++ t1 ++ t2 ++ t3)
              | (.ok _, t3) =>
                  (.ok ⟨true, postId, mediaId⟩, t0 ++ t1 ++ t2 ++ t3)

/-- The request handler of `src/unnamed/part_000` (the callback passed
to `http.createServer`); textually identical control flow to the
`src/index.js` one, calling this file's `runWorker`. -/
def server (workerSecret : String) (o : Oracle) (pathname : String)
    (secretParam : Option String) : HttpResponse × List Call :=
  if pathname = "/run" then
    if secretParam ≠ some workerSecret then
      (⟨403, none, "Forbidden: bad secret"⟩, [])
    else
      match runWorker o with
      | (.ok result, t) => (⟨200, some "application/json", stringifyRunResult result⟩, t)
      | (.error e, t) => (⟨500, none, e⟩, t)
  else
    (⟨200, some "text/plain", "AI Image Worker running. Use /run?secret=YOUR_SECRET"⟩, [])

end Part000

/-- Build a JavaScript object value from a list of bindings. -/
def jobj (l : List (String × JSVal)) : JSVal :=
  .obj (l.foldr (fun p acc => JSObj.cons p.1 p.2 acc) .nil)

/-- Build a JavaScript array value from a list of elements. -/
def jarr (l : List JSVal) : JSVal :=
  .arr (l.foldr JSArr.cons .nil)

/-- A successful collaborator response carrying the given JSON body. -/
def okResp (b : JSVal) : Response := ⟨true, 200, "", b⟩

/-- A failed collaborator response (HTTP 503). -/
def failResp : Response := ⟨false, 503, "unavailable", .null⟩

/-- Whether the fetch-latest-post step succeeds against this oracle
(`src/unnamed/part_000` semantics): successful response whose body is a
non-empty array. -/
def Part000.fetchOk (o : Oracle) : Bool :=
  o.fetchPosts.ok &&
    (match o.fetchPosts.body with
     | .arr (.cons _ _) => true
     | _ => false)

/-- The image URL `src/unnamed/part_000` extracts from a generation
response body: the value of `data[0].url` provided the whole chain is
truthy, string-coerced as `fetch` would. -/
def Part000.imageUrl (body : JSVal) : Option String :=
  match body.getField "data" with
  | .error _ => none
  | .ok d1 =>
    if !d1.truthy then none
    else
      match d1.getIndex 0 with
      | .error _ => none
      | .ok d2 =>
        if !d2.truthy then none
        else
          match d2.getField "url" with
          | .error _ => none
          | .ok d3 => if !d3.truthy then none else some d3.toDisplay

/-- Whether the image-generation call succeeds against this oracle
(`src/unnamed/part_000` semantics): successful response exposing a
truthy `data[0].url`. -/
def Part000.genOk (o : Oracle) : Bool :=
  o.genImage.ok && (Part000.imageUrl o.genImage.body).isSome

/-- Whether the image download step succeeds against this oracle: a URL
was extracted and the GET against it is successful. -/
def Part000.downloadOk (o : Oracle) : Bool :=
  match Part000.imageUrl o.genImage.body with
  | some u => (o.download u).ok
  | none => false

/-- Whether the media upload step succeeds against this oracle
(`src/unnamed/part_000` semantics): successful response whose body
carries a truthy `id`. -/
def Part000.uploadOk (o : Oracle) : Bool :=
  o.uploadMedia.ok &&
    (match o.uploadMedia.body.getField "id" with
     | .ok v => v.truthy
     | .error _ => false)

/-- The image buffer `src/index.js` builds from a generation response
body: `Buffer.from(data.data[0].b64_json, base64)`, with the TypeErrors
those accesses can raise. -/
def IndexJs.imageBuffer (body : JSVal) : Except String Buffer :=
  match body.getField "data" with
  | .error e => .error e
  | .ok d1 =>
    match d1.getIndex 0 with
    | .error e => .error e
    | .ok d2 =>
      match d2.getField "b64_json" with
      | .error e => .error e
      | .ok v => bufferFromBase64Arg v

/-- Whether the image-generation call succeeds against this oracle
(`src/index.js` semantics): successful response whose body decodes to a
buffer. -/
def IndexJs.genOk (o : Oracle) : Bool :=
  o.genImage.ok && (IndexJs.imageBuffer o.genImage.body).toOption.isSome

/-- Whether the media upload step succeeds against this oracle
(`src/index.js` semantics): successful response whose body supports the
`id` access (no truthiness check in this variant). -/
def IndexJs.uploadOk (o : Oracle) : Bool :=
  o.uploadMedia.ok &&
    (match o.uploadMedia.body.getField "id" with
     | .ok _ => true
     | .error _ => false)

/-- Whether the fetch-latest-post step succeeds against this oracle
(`src/index.js` semantics): successful response whose body supports the
`length` access and carries a truthy `length`. -/
def IndexJs.fetchOk (o : Oracle) : Bool :=
  o.fetchPosts.ok &&
    (match o.fetchPosts.body.getField "length" with
     | .ok len => len.truthy
     | .error _ => false)

/-- A fixture world in which every collaborator call succeeds, for both
API variants at once: the generation response carries both a `url` and a
`b64_json` field.  Post id 42, media id 900, matching the concrete
scenario of the specification. -/
def oAllOk : Oracle where
  fetchPosts := okResp (jarr [jobj [("id", .num 42), ("title", jobj [("rendered", .str "Best Cabs in Manchester")])]])
  genImage := okResp (jobj [("data", jarr [jobj [("url", .str "https://img.example/x.png"), ("b64_json", .str "QUJD")]])])
  download := fun _ => ⟨true, 200, "PNGBYTES", .null⟩
  uploadMedia := okResp (jobj [("id", .num 900)])
  setFeatured := okResp (jobj [("id", .num 42)])
  now := 1700000000000

/-- A fixture world whose fetch-latest-post call succeeds with a body
that is not an array but has a truthy `length` property. -/
def oLengthObj : Oracle :=
  { oAllOk with fetchPosts := okResp (jobj [("length", .num 1)]) }

/-- A fixture world whose upload call succeeds with a body that has no
`id` field. -/
def oNoUploadId : Oracle :=
  { oAllOk with uploadMedia := okResp (jobj []) }

/-- A fixture world whose latest post has no `title` field at all. -/
def oNoTitle : Oracle :=
  { oAllOk with fetchPosts := okResp (jarr [jobj [("id", .num 7)]]) }

/-- A fixture world whose generation response is successful but carries
an empty-string `data[0].url`. -/
def oEmptyUrl : Oracle :=
  { oAllOk with genImage := okResp (jobj [("data", jarr [jobj [("url", .str "")]])]) }

/-- A fixture world whose generation call fails with HTTP 503. -/
def oGenFail : Oracle := { oAllOk with genImage := failResp }

/-- A fixture world whose fetch-latest-post call fails with HTTP 503. -/
def oFetchFail : Oracle := { oAllOk with fetchPosts := failResp }

/-- A fixture world whose generation response is successful but carries a
`null` JSON body. -/
def oNullGenBody : Oracle := { oAllOk with genImage := okResp .null }

/-- The title value `src/unnamed/part_000` ends up interpolating into the
prompt, as a function of the post object's fields: the `rendered` field of
a truthy `title`, with the `(no title)` fallback for every falsy
intermediate value. -/
def Part000.titleOf (pf : JSObj) : JSVal :=
  let tval := (pf.lookup "title").getD .undefined
  let condV := if tval.truthy then ((tval.getField "rendered").toOption.getD .undefined) else tval
  if condV.truthy then condV else .str "(no title)"

/-- The title value `src/index.js` ends up interpolating into the prompt,
as a function of a present `title` object's fields: `rendered` when
truthy, else the `(no title)` fallback. -/
def IndexJs.titleOf (tf : JSObj) : JSVal :=
  let rend := (tf.lookup "rendered").getD .undefined
  if rend.truthy then rend else .str "(no title)"

/-!
Helper lemmas: per-step characterisations of the embedded functions, and
master case analyses of the two `runWorker` variants, used by the claim
theorems below.
-/

theorem Part000.getLatestPost_call_list (o : Oracle) :
    (Part000.getLatestPost o).2 = [Call.fetchPosts] := rfl

theorem IndexJs.getLatestPost_one_call (o : Oracle) :
    (IndexJs.getLatestPost o).2 = [Call.fetchPosts] := rfl

theorem IndexJs.callOpenAIImage_snd (o : Oracle) (pr : String) :
    (IndexJs.callOpenAIImage o pr).2 = [Call.genImage pr] := rfl

theorem IndexJs.uploadImageToWP_one_call (o : Oracle) (b : Buffer) (fn : String) :
    (IndexJs.uploadImageToWP o b fn).2 = [Call.uploadMedia fn] := rfl

theorem Part000.uploadImageToWP_call_list (o : Oracle) (b : Buffer) (fn : String) :
    (Part000.uploadImageToWP o b fn).2 = [Call.uploadMedia fn] := rfl

theorem setFeaturedImage_snd (o : Oracle) (pid mid : JSVal) :
    (setFeaturedImage o pid mid).2 = [Call.setFeatured pid mid] := rfl

theorem Part000.callOpenAIImage_trace (o : Oracle) (pr : String) :
    (Part000.callOpenAIImage o pr).2 = [Call.genImage pr] ∨
    ∃ u, (Part000.callOpenAIImage o pr).2 = [Call.genImage pr, Call.download u] := by
  unfold Part000.callOpenAIImage
  dsimp only
  repeat' split
  all_goals simp

theorem Part000.callOpenAIImage_genOk_false (o : Oracle) (pr : String)
    (h : Part000.genOk o = false) :
    ∃ e, Part000.callOpenAIImage o pr = (.error e, [Call.genImage pr]) := by
  unfold Part000.genOk Part000.imageUrl at h
  unfold Part000.callOpenAIImage
  cases hok : o.genImage.ok <;> simp [hok] at h ⊢
  rcases hd : o.genImage.body.getField "data" with e | d1 <;> simp [hd] at h ⊢
  cases ht1 : d1.truthy <;> simp [ht1] at h ⊢
  rcases hi : d1.getIndex 0 with e | d2 <;> simp [hi] at h ⊢
  cases ht2 : d2.truthy <;> simp [ht2] at h ⊢
  rcases hu : d2.getField "url" with e | d3 <;> simp [hu] at h ⊢
  cases ht3 : d3.truthy <;> simp [ht3] at h ⊢

theorem Part000.callOpenAIImage_of_url (o : Oracle) (pr u : String)
    (hok : o.genImage.ok = true)
    (h : Part000.imageUrl o.genImage.body = some u) :
    Part000.callOpenAIImage o pr =
      ((if (o.download u).ok then
          Except.ok (Buffer.fromArrayBuffer (o.download u).text)
        else
          Except.error ("Failed to download image from OpenAI URL: " ++ toString (o.download u).status)),
       [Call.genImage pr, Call.download u]) := by
  unfold Part000.imageUrl at h
  unfold Part000.callOpenAIImage
  simp only [hok]
  rcases hd : o.genImage.body.getField "data" with e | d1 <;> simp [hd] at h ⊢
  cases ht1 : d1.truthy <;> simp [ht1] at h ⊢
  rcases hi : d1.getIndex 0 with e | d2 <;> simp [hi] at h ⊢
  cases ht2 : d2.truthy <;> simp [ht2] at h ⊢
  rcases hu : d2.getField "url" with e | d3 <;> simp [hu] at h ⊢
  cases ht3 : d3.truthy <;> simp [ht3] at h ⊢
  subst h
  cases hdl : (o.download d3.toDisplay).ok <;> simp [hdl]

theorem Part000.uploadImageToWP_uploadOk_false (o : Oracle) (b : Buffer) (fn : String)
    (h : Part000.uploadOk o = false) :
    ∃ e, Part000.uploadImageToWP o b fn = (.error e, [Call.uploadMedia fn]) := by
  unfold Part000.uploadOk at h
  unfold Part000.uploadImageToWP
  cases hok : o.uploadMedia.ok <;> simp [hok] at h ⊢
  rcases hid : o.uploadMedia.body.getField "id" with e | idv <;> simp [hid] at h ⊢
  cases ht : idv.truthy <;> simp [ht] at h ⊢

theorem Part000.uploadImageToWP_uploadOk_true (o : Oracle) (b : Buffer) (fn : String)
    (h : Part000.uploadOk o = true) :
    ∃ v, Part000.uploadImageToWP o b fn = (.ok v, [Call.uploadMedia fn]) := by
  unfold Part000.uploadOk at h
  unfold Part000.uploadImageToWP
  cases hok : o.uploadMedia.ok <;> simp [hok] at h ⊢
  rcases hid : o.uploadMedia.body.getField "id" with e | idv <;> simp [hid] at h ⊢
  cases ht : idv.truthy <;> simp [ht] at h ⊢

theorem IndexJs.callOpenAIImage_eq (o : Oracle) (pr : String) :
    IndexJs.callOpenAIImage o pr =
      ((if o.genImage.ok then IndexJs.imageBuffer o.genImage.body
        else .error ("OpenAI error " ++ toString o.genImage.status ++ ": " ++ o.genImage.text)),
       [Call.genImage pr]) := by
  unfold IndexJs.callOpenAIImage IndexJs.imageBuffer
  cases h : o.genImage.ok <;> simp [h]

theorem JSVal.stringifyCore_num (n : Int) :
    JSVal.stringifyCore (.num n) = some (toString n) := by
  simp [JSVal.stringifyCore]

theorem JSVal.getField_of_truthy (v : JSVal) (f : String) (h : v.truthy = true) :
    v.getField f = .ok ((v.getField f).toOption.getD .undefined) := by
  cases v <;> simp_all [JSVal.truthy, JSVal.getField, Except.toOption]

theorem Part000.runWorker_cases (o : Oracle) :
    (∃ e, Part000.runWorker o = (.error e, [Call.fetchPosts]))
  ∨ (∃ e pr, Part000.genOk o = false ∧
       Part000.runWorker o = (.error e, [Call.fetchPosts, Call.genImage pr]))
  ∨ (∃ e pr u, Part000.genOk o = true ∧ Part000.downloadOk o = false ∧
       Part000.runWorker o = (.error e, [Call.fetchPosts, Call.genImage pr, Call.download u]))
  ∨ (∃ e pr u fn, Part000.genOk o = true ∧ Part000.downloadOk o = true ∧
       Part000.uploadOk o = false ∧
       Part000.runWorker o =
         (.error e, [Call.fetchPosts, Call.genImage pr, Call.download u, Call.uploadMedia fn]))
  ∨ (∃ pr u fn pid mid, Part000.genOk o = true ∧ Part000.downloadOk o = true ∧
       Part000.uploadOk o = true ∧
       ((o.setFeatured.ok = false ∧ ∃ e, Part000.runWorker o =
           (.error e, [Call.fetchPosts, Call.genImage pr, Call.download u,
                       Call.uploadMedia fn, Call.setFeatured pid mid]))
        ∨ (o.setFeatured.ok = true ∧ Part000.runWorker o =
           (.ok ⟨true, pid, mid⟩, [Call.fetchPosts, Call.genImage pr, Call.download u,
                       Call.uploadMedia fn, Call.setFeatured pid mid])))) := by
  obtain ⟨⟨fr, t0⟩, hfe⟩ : ∃ x, Part000.getLatestPost o = x := ⟨_, rfl⟩
  have ht0 : t0 = [Call.fetchPosts] := by
    have h2 := congrArg Prod.snd hfe
    simpa [Part000.getLatestPost_call_list] using h2.symm
  subst ht0
  cases fr with
  | error e => left; exact ⟨e, by simp [Part000.runWorker, hfe]⟩
  | ok post =>
    rcases hT : post.getField "title" with e | tval
    · left; exact ⟨e, by simp [Part000.runWorker, hfe, hT]⟩
    · rcases hC : (if tval.truthy then tval.getField "rendered" else .ok tval) with e | condV
      · left; exact ⟨e, by simp [Part000.runWorker, hfe, hT, hC]⟩
      · rcases hI : post.getField "id" with e | postId
        · left; exact ⟨e, by simp [Part000.runWorker, hfe, hT, hC, hI]⟩
        · cases hg : Part000.genOk o with
          | false =>
            obtain ⟨e, hc⟩ := Part000.callOpenAIImage_genOk_false o
              (Part000.promptFor (if condV.truthy then condV else JSVal.str "(no title)").toDisplay) hg
            right; left
            exact ⟨e, Part000.promptFor (if condV.truthy then condV else JSVal.str "(no title)").toDisplay,
              rfl, by simp [Part000.runWorker, hfe, hT, hC, hI, hc]⟩
          | true =>
            have hg2 : o.genImage.ok = true ∧ (Part000.imageUrl o.genImage.body).isSome = true := by
              have h3 := hg; unfold Part000.genOk at h3; simpa using h3
            have hok : o.genImage.ok = true := hg2.1
            obtain ⟨u, hu⟩ : ∃ u, Part000.imageUrl o.genImage.body = some u :=
              Option.isSome_iff_exists.mp hg2.2
            have hc := Part000.callOpenAIImage_of_url o
              (Part000.promptFor (if condV.truthy then condV else JSVal.str "(no title)").toDisplay) u hok hu
            cases hdl : (o.download u).ok with
            | false =>
              have hdOk : Part000.downloadOk o = false := by
                unfold Part000.downloadOk; simp [hu, hdl]
              right; right; left
              rw [hdl] at hc
              simp only [Bool.false_eq_true, if_false] at hc
              exact ⟨"Failed to download image from OpenAI URL: " ++ toString (o.download u).status,
                Part000.promptFor (if condV.truthy then condV else JSVal.str "(no title)").toDisplay,
                u, rfl, hdOk, by simp [Part000.runWorker, hfe, hT, hC, hI, hc]⟩
            | true =>
              have hdOk : Part000.downloadOk o = true := by
                unfold Part000.downloadOk; simp [hu, hdl]
              rw [hdl] at hc
              simp only [if_true] at hc
              cases hup : Part000.uploadOk o with
              | false =>
                obtain ⟨e, hupEq⟩ := Part000.uploadImageToWP_uploadOk_false o
                  (Buffer.fromArrayBuffer (o.download u).text)
                  ("ai-taxi-" ++ toString o.now ++ ".png") hup
                right; right; right; left
                exact ⟨e, Part000.promptFor (if condV.truthy then condV else JSVal.str "(no title)").toDisplay,
                  u, "ai-taxi-" ++ toString o.now ++ ".png", rfl, hdOk, rfl,
                  by simp [Part000.runWorker, hfe, hT, hC, hI, hc, hupEq]⟩
              | true =>
                obtain ⟨v, hupEq⟩ := Part000.uploadImageToWP_uploadOk_true o
                  (Buffer.fromArrayBuffer (o.download u).text)
                  ("ai-taxi-" ++ toString o.now ++ ".png") hup
                right; right; right; right
                refine ⟨Part000.promptFor (if condV.truthy then condV else JSVal.str "(no title)").toDisplay,
                  u, "ai-taxi-" ++ toString o.now ++ ".png", postId, v, rfl, hdOk, rfl, ?_⟩
                cases hsf : o.setFeatured.ok with
                | false =>
                  left
                  refine ⟨rfl, ?_⟩
                  exact ⟨"WP API POST " ++ ("/wp-json/wp/v2/posts/" ++ postId.toDisplay) ++ " "
                      ++ toString o.setFeatured.status ++ ": " ++ o.setFeatured.text,
                    by simp [Part000.runWorker, hfe, hT, hC, hI, hc, hupEq,
                        setFeaturedImage, wpApiJson, hsf]⟩
                | true =>
                  right
                  exact ⟨rfl, by simp [Part000.runWorker, hfe, hT, hC, hI, hc, hupEq,
                        setFeaturedImage, wpApiJson, hsf]⟩

theorem IndexJs.runWorker_case_split (o : Oracle) :
    (∃ e, IndexJs.runWorker o = (.error e, [Call.fetchPosts]))
  ∨ (∃ e pr, IndexJs.genOk o = false ∧
       IndexJs.runWorker o = (.error e, [Call.fetchPosts, Call.genImage pr]))
  ∨ (∃ e pr fn, IndexJs.genOk o = true ∧ IndexJs.uploadOk o = false ∧
       IndexJs.runWorker o = (.error e, [Call.fetchPosts, Call.genImage pr, Call.uploadMedia fn]))
  ∨ (∃ pr fn pid mid, IndexJs.genOk o = true ∧ IndexJs.uploadOk o = true ∧
       ((o.setFeatured.ok = false ∧ ∃ e, IndexJs.runWorker o =
           (.error e, [Call.fetchPosts, Call.genImage pr, Call.uploadMedia fn, Call.setFeatured pid mid]))
        ∨ (o.setFeatured.ok = true ∧ IndexJs.runWorker o =
           (.ok ⟨true, pid, mid⟩,
            [Call.fetchPosts, Call.genImage pr, Call.uploadMedia fn, Call.setFeatured pid mid])))) := by
  obtain ⟨⟨fr, t0⟩, hfe⟩ : ∃ x, IndexJs.getLatestPost o = x := ⟨_, rfl⟩
  have ht0 : t0 = [Call.fetchPosts] := by
    have h2 := congrArg Prod.snd hfe
    simpa [IndexJs.getLatestPost_one_call] using h2.symm
  subst ht0
  cases fr with
  | error e => left; exact ⟨e, by simp [IndexJs.runWorker, hfe]⟩
  | ok post =>
    rcases hT : post.getField "title" with e | tval
    · left; exact ⟨e, by simp [IndexJs.runWorker, hfe, hT]⟩
    · rcases hR : tval.getField "rendered" with e | rend
      · left; exact ⟨e, by simp [IndexJs.runWorker, hfe, hT, hR]⟩
      · rcases hI : post.getField "id" with e | postId
        · left; exact ⟨e, by simp [IndexJs.runWorker, hfe, hT, hR, hI]⟩
        · have hgEq := IndexJs.callOpenAIImage_eq o
            (IndexJs.promptFor (if rend.truthy then rend else JSVal.str "(no title)").toDisplay)
          cases hg : IndexJs.genOk o with
          | false =>
            have hge : ∃ e, IndexJs.callOpenAIImage o
                (IndexJs.promptFor (if rend.truthy then rend else JSVal.str "(no title)").toDisplay) =
                (.error e, [Call.genImage (IndexJs.promptFor (if rend.truthy then rend else JSVal.str "(no title)").toDisplay)]) := by
              unfold IndexJs.genOk at hg
              rw [hgEq]
              cases hok : o.genImage.ok with
              | false => simp [hok]
              | true =>
                simp only [hok, if_true]
                rcases hb : IndexJs.imageBuffer o.genImage.body with e | b
                · exact ⟨e, rfl⟩
                · rw [hok, hb] at hg; simp [Except.toOption] at hg
            obtain ⟨e, hc⟩ := hge
            right; left
            exact ⟨e, IndexJs.promptFor (if rend.truthy then rend else JSVal.str "(no title)").toDisplay,
              rfl, by simp [IndexJs.runWorker, hfe, hT, hR, hI, hc]⟩
          | true =>
            have hg2 : o.genImage.ok = true ∧
                (IndexJs.imageBuffer o.genImage.body).toOption.isSome = true := by
              have h3 := hg; unfold IndexJs.genOk at h3; simpa using h3
            obtain ⟨b, hb⟩ : ∃ b, IndexJs.imageBuffer o.genImage.body = .ok b := by
              rcases hb : IndexJs.imageBuffer o.genImage.body with e | b
              · rw [hb] at hg2; simp [Except.toOption] at hg2
              · exact ⟨b, rfl⟩
            have hgEq2 : IndexJs.callOpenAIImage o
                (IndexJs.promptFor (if rend.truthy then rend else JSVal.str "(no title)").toDisplay) =
                (.ok b, [Call.genImage (IndexJs.promptFor (if rend.truthy then rend else JSVal.str "(no title)").toDisplay)]) := by
              rw [hgEq]; simp [hg2.1, hb]
            cases hup : IndexJs.uploadOk o with
            | false =>
              have hupEq : ∃ e, IndexJs.uploadImageToWP o b ("ai-taxi-" ++ toString o.now ++ ".png") =
                  (.error e, [Call.uploadMedia ("ai-taxi-" ++ toString o.now ++ ".png")]) := by
                unfold IndexJs.uploadOk at hup
                unfold IndexJs.uploadImageToWP
                cases hok : o.uploadMedia.ok <;> simp [hok] at hup ⊢
                rcases hid : o.uploadMedia.body.getField "id" with e | idv <;>
                  simp [hid] at hup ⊢
              obtain ⟨e, hc2⟩ := hupEq
              right; right; left
              exact ⟨e, IndexJs.promptFor (if rend.truthy then rend else JSVal.str "(no title)").toDisplay,
                "ai-taxi-" ++ toString o.now ++ ".png", rfl, rfl,
                by simp [IndexJs.runWorker, hfe, hT, hR, hI, hgEq2, hc2]⟩
            | true =>
              have hupEq : ∃ v, IndexJs.uploadImageToWP o b ("ai-taxi-" ++ toString o.now ++ ".png") =
                  (.ok v, [Call.uploadMedia ("ai-taxi-" ++ toString o.now ++ ".png")]) := by
                unfold IndexJs.uploadOk at hup
                unfold IndexJs.uploadImageToWP
                cases hok : o.uploadMedia.ok <;> simp [hok] at hup ⊢
                rcases hid : o.uploadMedia.body.getField "id" with e | idv <;>
                  simp [hid] at hup ⊢
              obtain ⟨v, hc2⟩ := hupEq
              right; right; right
              refine ⟨IndexJs.promptFor (if rend.truthy then rend else JSVal.str "(no title)").toDisplay,
                "ai-taxi-" ++ toString o.now ++ ".png", postId, v, rfl, rfl, ?_⟩
              cases hsf : o.setFeatured.ok with
              | false =>
                left
                refine ⟨rfl, ?_⟩
                exact ⟨"WP API POST " ++ ("/wp-json/wp/v2/posts/" ++ postId.toDisplay) ++ " "
                    ++ toString o.setFeatured.status ++ ": " ++ o.setFeatured.text,
                  by simp [IndexJs.runWorker, hfe, hT, hR, hI, hgEq2, hc2,
                      setFeaturedImage, wpApiJson, hsf]⟩
              | true =>
                right
                exact ⟨rfl, by simp [IndexJs.runWorker, hfe, hT, hR, hI, hgEq2, hc2,
                    setFeaturedImage, wpApiJson, hsf]⟩

theorem Part000.runWorker_fetch_fail (o : Oracle) (h : Part000.fetchOk o = false) :
    (Part000.runWorker o).2 = [Call.fetchPosts] := by
  have hge : ∃ e, Part000.getLatestPost o = (.error e, [Call.fetchPosts]) := by
    unfold Part000.fetchOk at h
    unfold Part000.getLatestPost wpApiJson
    cases hok : o.fetchPosts.ok <;> simp [hok] at h ⊢
    cases hb : o.fetchPosts.body <;> simp [hb] at h ⊢
    case arr xs =>
      cases xs with
      | nil => simp [JSArr.length]
      | cons v rest => simp at h
  obtain ⟨e, hge⟩ := hge
  simp [Part000.runWorker, hge]

theorem IndexJs.runWorker_fetch_stops (o : Oracle) (h : IndexJs.fetchOk o = false) :
    (IndexJs.runWorker o).2 = [Call.fetchPosts] := by
  have hge : ∃ e, IndexJs.getLatestPost o = (.error e, [Call.fetchPosts]) := by
    unfold IndexJs.fetchOk at h
    unfold IndexJs.getLatestPost wpApiJson
    cases hok : o.fetchPosts.ok <;> simp [hok] at h ⊢
    rcases hl : o.fetchPosts.body.getField "length" with e | len <;> simp [hl] at h ⊢
    cases ht : len.truthy <;> simp [ht] at h ⊢
  obtain ⟨e, hge⟩ := hge
  simp [IndexJs.runWorker, hge]

theorem Part000.runWorker_gen_prefix (o : Oracle) (pf : JSObj) (rest : JSArr)
    (hfo : o.fetchPosts.ok = true)
    (hfb : o.fetchPosts.body = .arr (.cons (.obj pf) rest)) :
    ∃ tl, (Part000.runWorker o).2 =
      Call.fetchPosts :: Call.genImage (Part000.promptFor (Part000.titleOf pf).toDisplay) :: tl := by
  have hfetch : Part000.getLatestPost o = (.ok (.obj pf), [Call.fetchPosts]) := by
    simp [Part000.getLatestPost, wpApiJson, hfo, hfb, JSArr.length, JSArr.get?]
  have hT : (JSVal.obj pf).getField "title" = .ok ((pf.lookup "title").getD .undefined) := by
    simp [JSVal.getField]
  have hC : (if ((pf.lookup "title").getD .undefined).truthy
        then ((pf.lookup "title").getD .undefined).getField "rendered"
        else .ok ((pf.lookup "title").getD .undefined)) =
      .ok (if ((pf.lookup "title").getD .undefined).truthy
        then ((((pf.lookup "title").getD .undefined).getField "rendered").toOption.getD .undefined)
        else ((pf.lookup "title").getD .undefined)) := by
    cases ht : ((pf.lookup "title").getD .undefined).truthy with
    | false => simp
    | true =>
      simp only [ht, if_true]
      exact JSVal.getField_of_truthy _ _ ht
  have hI : (JSVal.obj pf).getField "id" = .ok ((pf.lookup "id").getD .undefined) := by
    simp [JSVal.getField]
  have hprompt : Part000.promptFor
      (if (if ((pf.lookup "title").getD .undefined).truthy
          then ((((pf.lookup "title").getD .undefined).getField "rendered").toOption.getD .undefined)
          else ((pf.lookup "title").getD .undefined)).truthy
        then (if ((pf.lookup "title").getD .undefined).truthy
          then ((((pf.lookup "title").getD .undefined).getField "rendered").toOption.getD .undefined)
          else ((pf.lookup "title").getD .undefined))
        else JSVal.str "(no title)").toDisplay =
      Part000.promptFor (Part000.titleOf pf).toDisplay := rfl
  obtain ⟨⟨gr, t1⟩, hge⟩ : ∃ x, Part000.callOpenAIImage o
      (Part000.promptFor (Part000.titleOf pf).toDisplay) = x := ⟨_, rfl⟩
  have ht1 : ∃ tl1, t1 = Call.genImage (Part000.promptFor (Part000.titleOf pf).toDisplay) :: tl1 := by
    rcases Part000.callOpenAIImage_trace o (Part000.promptFor (Part000.titleOf pf).toDisplay) with h1 | ⟨u, h1⟩ <;>
      rw [hge] at h1 <;> exact ⟨_, h1⟩
  obtain ⟨tl1, ht1⟩ := ht1
  subst ht1
  cases gr with
  | error e =>
    exact ⟨tl1, by simp [Part000.runWorker, hfetch, hT, hC, hI, hprompt, hge]⟩
  | ok image =>
    obtain ⟨⟨ur, t2⟩, hup⟩ : ∃ x, Part000.uploadImageToWP o image
        ("ai-taxi-" ++ toString o.now ++ ".png") = x := ⟨_, rfl⟩
    have ht2 : t2 = [Call.uploadMedia ("ai-taxi-" ++ toString o.now ++ ".png")] := by
      have h2 := congrArg Prod.snd hup
      simpa [Part000.uploadImageToWP_call_list] using h2.symm
    subst ht2
    cases ur with
    | error e =>
      exact ⟨tl1 ++ [Call.uploadMedia ("ai-taxi-" ++ toString o.now ++ ".png")],
        by simp [Part000.runWorker, hfetch, hT, hC, hI, hprompt, hge, hup]⟩
    | ok mediaId =>
      rcases hsf : o.setFeatured.ok with _ | _ <;>
        exact ⟨tl1 ++ [Call.uploadMedia ("ai-taxi-" ++ toString o.now ++ ".png"),
            Call.setFeatured ((pf.lookup "id").getD .undefined) mediaId],
          by simp [Part000.runWorker, hfetch, hT, hC, hI, hprompt, hge, hup,
            setFeaturedImage, wpApiJson, hsf]⟩

theorem IndexJs.runWorker_gen_head (o : Oracle) (pf tf : JSObj) (rest : JSArr)
    (hfo : o.fetchPosts.ok = true)
    (hfb : o.fetchPosts.body = .arr (.cons (.obj pf) rest))
    (htl : pf.lookup "title" = some (.obj tf)) :
    ∃ tl, (IndexJs.runWorker o).2 =
      Call.fetchPosts :: Call.genImage (IndexJs.promptFor (IndexJs.titleOf tf).toDisplay) :: tl := by
  have hfetch : IndexJs.getLatestPost o = (.ok (.obj pf), [Call.fetchPosts]) := by
    simp [IndexJs.getLatestPost, wpApiJson, hfo, hfb, JSVal.getField, JSVal.truthy,
          JSVal.getIndex, JSArr.get?, JSArr.length]
    omega
  have hT : (JSVal.obj pf).getField "title" = .ok (.obj tf) := by
    simp [JSVal.getField, htl]
  have hR : (JSVal.obj tf).getField "rendered" = .ok ((tf.lookup "rendered").getD .undefined) := by
    simp [JSVal.getField]
  have hI : (JSVal.obj pf).getField "id" = .ok ((pf.lookup "id").getD .undefined) := by
    simp [JSVal.getField]
  have hprompt : IndexJs.promptFor
      (if ((tf.lookup "rendered").getD .undefined).truthy
        then ((tf.lookup "rendered").getD .undefined)
        else JSVal.str "(no title)").toDisplay =
      IndexJs.promptFor (IndexJs.titleOf tf).toDisplay := rfl
  obtain ⟨⟨gr, t1⟩, hge⟩ : ∃ x, IndexJs.callOpenAIImage o
      (IndexJs.promptFor (IndexJs.titleOf tf).toDisplay) = x := ⟨_, rfl⟩
  have ht1 : t1 = [Call.genImage (IndexJs.promptFor (IndexJs.titleOf tf).toDisplay)] := by
    have h2 := congrArg Prod.snd hge
    simpa [IndexJs.callOpenAIImage_snd] using h2.symm
  subst ht1
  cases gr with
  | error e =>
    exact ⟨[], by simp [IndexJs.runWorker, hfetch, hT, hR, hI, hprompt, hge]⟩
  | ok image =>
    obtain ⟨⟨ur, t2⟩, hup⟩ : ∃ x, IndexJs.uploadImageToWP o image
        ("ai-taxi-" ++ toString o.now ++ ".png") = x := ⟨_, rfl⟩
    have ht2 : t2 = [Call.uploadMedia ("ai-taxi-" ++ toString o.now ++ ".png")] := by
      have h2 := congrArg Prod.snd hup
      simpa [IndexJs.uploadImageToWP_one_call] using h2.symm
    subst ht2
    cases ur with
    | error e =>
      exact ⟨[Call.uploadMedia ("ai-taxi-" ++ toString o.now ++ ".png")],
        by simp [IndexJs.runWorker, hfetch, hT, hR, hI, hprompt, hge, hup]⟩
    | ok mediaId =>
      rcases hsf : o.setFeatured.ok with _ | _ <;>
        exact ⟨[Call.uploadMedia ("ai-taxi-" ++ toString o.now ++ ".png"),
            Call.setFeatured ((pf.lookup "id").getD .undefined) mediaId],
          by simp [IndexJs.runWorker, hfetch, hT, hR, hI, hprompt, hge, hup,
            setFeaturedImage, wpApiJson, hsf]⟩

/-- C1: For every request whose pathname is `/run` and whose `secret`
query parameter differs from the configured shared secret (a missing
parameter included), both variants' listeners respond with status 403 and
the body `Forbidden: bad secret`, and the trace of remote calls is empty:
the pipeline is never executed and no external state changes. -/
theorem run_bad_secret_rejected (ws : String) (o : Oracle) (sp : Option String)
    (h : sp ≠ some ws) :
    IndexJs.server ws o "/run" sp = (⟨403, none, "Forbidden: bad secret"⟩, [])
    ∧ Part000.server ws o "/run" sp = (⟨403, none, "Forbidden: bad secret"⟩, []) := by
  constructor <;> simp [IndexJs.server, Part000.server, h]

/-- Witness for `run_bad_secret_rejected`: a missing parameter and a wrong
parameter, against the all-successful world. -/
theorem run_bad_secret_rejected_witness :
    ((none : Option String) ≠ some "changeme"
      ∧ IndexJs.server "changeme" oAllOk "/run" none = (⟨403, none, "Forbidden: bad secret"⟩, []))
    ∧ ((some "wrong" : Option String) ≠ some "changeme"
      ∧ Part000.server "changeme" oAllOk "/run" (some "wrong") = (⟨403, none, "Forbidden: bad secret"⟩, [])) :=
  ⟨⟨by decide, (run_bad_secret_rejected "changeme" oAllOk none (by decide)).1⟩,
   ⟨by decide, (run_bad_secret_rejected "changeme" oAllOk (some "wrong") (by decide)).2⟩⟩

/-- C2: For every request to `/run` with the correct secret, when the
fetch-latest-post call yields a post carrying a numeric id and a title
object, the image-generation call succeeds in both variants' shapes (a
base64 payload for `src/index.js`; a non-empty URL whose download
succeeds for `src/unnamed/part_000`), the upload responds with a numeric
media id, and the featured-image call succeeds, both listeners respond
with status 200 and the JSON body `ok:true, postId, mediaId` in which
`postId` is exactly the fetched post's id and `mediaId` exactly the id
the upload returned. -/
theorem run_success_response (ws : String) (o : Oracle)
    (pf tf gb d0 ub : JSObj) (ps ds : JSArr) (pid mid : Int) (b64 url : String)
    (hfo : o.fetchPosts.ok = true)
    (hfb : o.fetchPosts.body = .arr (.cons (.obj pf) ps))
    (hid : pf.lookup "id" = some (.num pid))
    (htl : pf.lookup "title" = some (.obj tf))
    (hgo : o.genImage.ok = true)
    (hgb : o.genImage.body = .obj gb)
    (hgd : gb.lookup "data" = some (.arr (.cons (.obj d0) ds)))
    (hb64 : d0.lookup "b64_json" = some (.str b64))
    (hurl : d0.lookup "url" = some (.str url))
    (hurlne : url ≠ "")
    (hdl : (o.download url).ok = true)
    (hupo : o.uploadMedia.ok = true)
    (hub : o.uploadMedia.body = .obj ub)
    (hui : ub.lookup "id" = some (.num mid))
    (hmid : mid ≠ 0)
    (hsf : o.setFeatured.ok = true) :
    (IndexJs.server ws o "/run" (some ws)).1 =
      ⟨200, some "application/json",
       "\x7b\"ok\":true,\"postId\":" ++ toString pid ++ ",\"mediaId\":" ++ toString mid ++ "\x7d"⟩
    ∧ (Part000.server ws o "/run" (some ws)).1 =
      ⟨200, some "application/json",
       "\x7b\"ok\":true,\"postId\":" ++ toString pid ++ ",\"mediaId\":" ++ toString mid ++ "\x7d"⟩ := by
  have hfetchI : IndexJs.getLatestPost o = (.ok (.obj pf), [Call.fetchPosts]) := by
    simp [IndexJs.getLatestPost, wpApiJson, hfo, hfb, JSVal.getField, JSVal.truthy,
          JSVal.getIndex, JSArr.get?, JSArr.length]
    omega
  have hfetchP : Part000.getLatestPost o = (.ok (.obj pf), [Call.fetchPosts]) := by
    simp [Part000.getLatestPost, wpApiJson, hfo, hfb, JSArr.length, JSArr.get?]
  have hbufI : IndexJs.imageBuffer o.genImage.body = .ok (.fromBase64 b64) := by
    simp [IndexJs.imageBuffer, hgb, hgd, JSVal.getField, JSVal.getIndex, JSArr.get?,
          hb64, bufferFromBase64Arg]
  have hgenI : ∀ pr, IndexJs.callOpenAIImage o pr =
      (.ok (.fromBase64 b64), [Call.genImage pr]) := by
    intro pr
    rw [IndexJs.callOpenAIImage_eq]
    simp [hgo, hbufI]
  have hurlP : Part000.imageUrl o.genImage.body = some url := by
    simp [Part000.imageUrl, hgb, hgd, JSVal.getField, JSVal.getIndex, JSArr.get?,
          hurl, JSVal.truthy, hurlne, JSVal.toDisplay]
  have hgenP : ∀ pr, Part000.callOpenAIImage o pr =
      (.ok (.fromArrayBuffer (o.download url).text),
       [Call.genImage pr, Call.download url]) := by
    intro pr
    have h2 := Part000.callOpenAIImage_of_url o pr url hgo hurlP
    rw [hdl] at h2
    simpa using h2
  have hupI : ∀ b fn, IndexJs.uploadImageToWP o b fn =
      (.ok (.num mid), [Call.uploadMedia fn]) := by
    intro b fn
    simp [IndexJs.uploadImageToWP, hupo, hub, JSVal.getField, hui]
  have hupP : ∀ b fn, Part000.uploadImageToWP o b fn =
      (.ok (.num mid), [Call.uploadMedia fn]) := by
    intro b fn
    simp [Part000.uploadImageToWP, hupo, hub, JSVal.getField, hui, JSVal.truthy, hmid]
  have hsfEq : ∀ pid2 mid2, setFeaturedImage o pid2 mid2 =
      (.ok o.setFeatured.body, [Call.setFeatured pid2 mid2]) := by
    intro pid2 mid2
    simp [setFeaturedImage, wpApiJson, hsf]
  constructor
  · simp only [IndexJs.server, IndexJs.runWorker, hfetchI, JSVal.getField, htl, hid,
          hgenI, hupI, hsfEq, stringifyRunResult, JSVal.stringifyCore_num]
    simp [JSVal.getField, htl, hid, JSVal.truthy, JSVal.stringifyCore_num,
          ← String.append_assoc]
  · simp only [Part000.server, Part000.runWorker, hfetchP, JSVal.getField, htl, hid,
          hgenP, hupP, hsfEq, stringifyRunResult, JSVal.stringifyCore_num]
    simp [JSVal.getField, htl, hid, JSVal.truthy, JSVal.stringifyCore_num,
          ← String.append_assoc]

/-- Witness for `run_success_response`: the specification's concrete
scenario, post id 42 and media id 900. -/
theorem run_success_response_witness :
    (IndexJs.server "changeme" oAllOk "/run" (some "changeme")).1 =
      ⟨200, some "application/json",
       "\x7b\"ok\":true,\"postId\":" ++ toString (42 : Int) ++ ",\"mediaId\":" ++ toString (900 : Int) ++ "\x7d"⟩
    ∧ (Part000.server "changeme" oAllOk "/run" (some "changeme")).1 =
      ⟨200, some "application/json",
       "\x7b\"ok\":true,\"postId\":" ++ toString (42 : Int) ++ ",\"mediaId\":" ++ toString (900 : Int) ++ "\x7d"⟩ :=
  run_success_response "changeme" oAllOk
    (JSObj.cons "id" (.num 42) (JSObj.cons "title"
      (.obj (JSObj.cons "rendered" (.str "Best Cabs in Manchester") JSObj.nil)) JSObj.nil))
    (JSObj.cons "rendered" (.str "Best Cabs in Manchester") JSObj.nil)
    (JSObj.cons "data" (.arr (.cons (.obj (JSObj.cons "url" (.str "https://img.example/x.png")
      (JSObj.cons "b64_json" (.str "QUJD") JSObj.nil))) .nil)) JSObj.nil)
    (JSObj.cons "url" (.str "https://img.example/x.png")
      (JSObj.cons "b64_json" (.str "QUJD") JSObj.nil))
    (JSObj.cons "id" (.num 900) .nil)
    .nil .nil 42 900 "QUJD" "https://img.example/x.png"
    rfl rfl rfl rfl rfl rfl rfl rfl rfl (by decide) rfl rfl rfl rfl (by decide) rfl

/-- C3: The pipeline is a strict gated sequence.  In the URL-return
variant: if the image-generation call fails, the trace contains no upload
and no featured-image call; if generation succeeds but the image download
fails, likewise; if the fetch fails, the trace is exactly the one fetch
call; if the upload fails, no featured-image call is made; and every
trace is strictly ordered along the pipeline with no step repeated and no
other (for example compensating) call present.  In the inline variant,
likewise: a failing generation call prevents any upload or featured-image
call, a failing fetch leaves the trace at exactly the one fetch call, a
failing upload prevents the featured-image call, and the trace is
strictly ordered. -/
theorem pipeline_strict_sequencing (o : Oracle) :
    (Part000.genOk o = false →
       ((Part000.runWorker o).2.all fun c => !c.isUpload && !c.isSetFeatured) = true)
  ∧ (Part000.genOk o = true → Part000.downloadOk o = false →
       ((Part000.runWorker o).2.all fun c => !c.isUpload && !c.isSetFeatured) = true)
  ∧ (Part000.fetchOk o = false → (Part000.runWorker o).2 = [Call.fetchPosts])
  ∧ (Part000.uploadOk o = false →
       ((Part000.runWorker o).2.all fun c => !c.isSetFeatured) = true)
  ∧ TraceOrdered (Part000.runWorker o).2
  ∧ (IndexJs.genOk o = false →
       ((IndexJs.runWorker o).2.all fun c => !c.isUpload && !c.isSetFeatured) = true)
  ∧ (IndexJs.fetchOk o = false → (IndexJs.runWorker o).2 = [Call.fetchPosts])
  ∧ (IndexJs.uploadOk o = false →
       ((IndexJs.runWorker o).2.all fun c => !c.isSetFeatured) = true)
  ∧ TraceOrdered (IndexJs.runWorker o).2 := by
  refine ⟨?_, ?_, Part000.runWorker_fetch_fail o, ?_, ?_, ?_,
    IndexJs.runWorker_fetch_stops o, ?_, ?_⟩
  · intro hg
    rcases Part000.runWorker_cases o with ⟨e, he⟩ | ⟨e, pr, hg2, he⟩ |
      ⟨e, pr, u, hg2, hd, he⟩ | ⟨e, pr, u, fn, hg2, hd, hup, he⟩ |
      ⟨pr, u, fn, pid, mid, hg2, hd, hup, hcase⟩
    · simp [he, Call.isUpload, Call.isSetFeatured]
    · simp [he, Call.isUpload, Call.isSetFeatured]
    · rw [hg] at hg2; exact absurd hg2 (by simp)
    · rw [hg] at hg2; exact absurd hg2 (by simp)
    · rw [hg] at hg2; exact absurd hg2 (by simp)
  · intro hg hd
    rcases Part000.runWorker_cases o with ⟨e, he⟩ | ⟨e, pr, hg2, he⟩ |
      ⟨e, pr, u, hg2, hd2, he⟩ | ⟨e, pr, u, fn, hg2, hd2, hup, he⟩ |
      ⟨pr, u, fn, pid, mid, hg2, hd2, hup, hcase⟩
    · simp [he, Call.isUpload, Call.isSetFeatured]
    · simp [he, Call.isUpload, Call.isSetFeatured]
    · simp [he, Call.isUpload, Call.isSetFeatured, Call.isDownload]
    · rw [hd] at hd2; exact absurd hd2 (by simp)
    · rw [hd] at hd2; exact absurd hd2 (by simp)
  · intro hup
    rcases Part000.runWorker_cases o with ⟨e, he⟩ | ⟨e, pr, hg2, he⟩ |
      ⟨e, pr, u, hg2, hd2, he⟩ | ⟨e, pr, u, fn, hg2, hd2, hup2, he⟩ |
      ⟨pr, u, fn, pid, mid, hg2, hd2, hup2, hcase⟩
    · simp [he, Call.isSetFeatured]
    · simp [he, Call.isSetFeatured]
    · simp [he, Call.isSetFeatured]
    · simp [he, Call.isSetFeatured]
    · rw [hup] at hup2; exact absurd hup2 (by simp)
  · rcases Part000.runWorker_cases o with ⟨e, he⟩ | ⟨e, pr, hg2, he⟩ |
      ⟨e, pr, u, hg2, hd2, he⟩ | ⟨e, pr, u, fn, hg2, hd2, hup2, he⟩ |
      ⟨pr, u, fn, pid, mid, hg2, hd2, hup2, hcase⟩
    · simp [he, TraceOrdered]
    · simp [he, TraceOrdered, Call.stepIdx]
    · simp [he, TraceOrdered, Call.stepIdx]
    · simp [he, TraceOrdered, Call.stepIdx]
    · rcases hcase with ⟨hsf, e, he⟩ | ⟨hsf, he⟩ <;>
        simp [he, TraceOrdered, Call.stepIdx]
  · intro hg
    rcases IndexJs.runWorker_case_split o with ⟨e, he⟩ | ⟨e, pr, hg2, he⟩ |
      ⟨e, pr, fn, hg2, hup, he⟩ | ⟨pr, fn, pid, mid, hg2, hup, hcase⟩
    · simp [he, Call.isUpload, Call.isSetFeatured]
    · simp [he, Call.isUpload, Call.isSetFeatured]
    · rw [hg] at hg2; exact absurd hg2 (by simp)
    · rw [hg] at hg2; exact absurd hg2 (by simp)
  · intro hup
    rcases IndexJs.runWorker_case_split o with ⟨e, he⟩ | ⟨e, pr, hg2, he⟩ |
      ⟨e, pr, fn, hg2, hup2, he⟩ | ⟨pr, fn, pid, mid, hg2, hup2, hcase⟩
    · simp [he, Call.isSetFeatured]
    · simp [he, Call.isSetFeatured]
    · simp [he, Call.isSetFeatured]
    · rw [hup] at hup2; exact absurd hup2 (by simp)
  · rcases IndexJs.runWorker_case_split o with ⟨e, he⟩ | ⟨e, pr, hg2, he⟩ |
      ⟨e, pr, fn, hg2, hup, he⟩ | ⟨pr, fn, pid, mid, hg2, hup, hcase⟩
    · simp [he, TraceOrdered]
    · simp [he, TraceOrdered, Call.stepIdx]
    · simp [he, TraceOrdered, Call.stepIdx]
    · rcases hcase with ⟨hsf, e, he⟩ | ⟨hsf, he⟩ <;>
        simp [he, TraceOrdered, Call.stepIdx]

/-- Witness for `pipeline_strict_sequencing`: a world whose generation
endpoint answers 503. -/
theorem pipeline_strict_sequencing_witness :
    Part000.genOk oGenFail = false
    ∧ ((Part000.runWorker oGenFail).2.all fun c => !c.isUpload && !c.isSetFeatured) = true
    ∧ IndexJs.genOk oGenFail = false
    ∧ ((IndexJs.runWorker oGenFail).2.all fun c => !c.isUpload && !c.isSetFeatured) = true :=
  ⟨rfl, (pipeline_strict_sequencing oGenFail).1 rfl, rfl,
   (pipeline_strict_sequencing oGenFail).2.2.2.2.2.1 rfl⟩

/-- C4 counterexample: the inline variant's fetch-latest-post does not
fail on every non-sequence result.  With a successful content-API
response whose JSON body is the non-array object carrying
`length = 1`, `src/index.js` returns `undefined` successfully instead of
throwing `No posts found`. -/
theorem getLatestPost_nonsequence_counterexample :
    oLengthObj.fetchPosts.ok = true
    ∧ oLengthObj.fetchPosts.body = .obj (JSObj.cons "length" (.num 1) .nil)
    ∧ IndexJs.getLatestPost oLengthObj = (.ok .undefined, [Call.fetchPosts]) :=
  ⟨rfl, rfl, rfl⟩

/-- C4 amended: on a successful content-API response, both variants fail
with `No posts found` on an empty array and return the first element of a
non-empty array; the URL-return variant also fails with `No posts found`
on every non-array result, whereas the inline variant checks only
truthiness of the result's `length` property (see the counterexample). -/
theorem getLatestPost_spec (o : Oracle) (h : o.fetchPosts.ok = true) :
    (o.fetchPosts.body = .arr .nil →
        Part000.getLatestPost o = (.error "No posts found", [Call.fetchPosts])
      ∧ IndexJs.getLatestPost o = (.error "No posts found", [Call.fetchPosts]))
  ∧ (∀ p rest, o.fetchPosts.body = .arr (.cons p rest) →
        Part000.getLatestPost o = (.ok p, [Call.fetchPosts])
      ∧ IndexJs.getLatestPost o = (.ok p, [Call.fetchPosts]))
  ∧ ((∀ xs, o.fetchPosts.body ≠ .arr xs) →
        Part000.getLatestPost o = (.error "No posts found", [Call.fetchPosts])) := by
  refine ⟨?_, ?_, ?_⟩
  · intro hb
    constructor <;>
      simp [Part000.getLatestPost, IndexJs.getLatestPost, wpApiJson, h, hb,
        JSVal.getField, JSVal.truthy, JSArr.length]
  · intro p rest hb
    constructor <;>
      simp [Part000.getLatestPost, IndexJs.getLatestPost, wpApiJson, h, hb,
        JSVal.getField, JSVal.truthy, JSArr.length, JSVal.getIndex, JSArr.get?]
    omega
  · intro hb
    rcases hbody : o.fetchPosts.body with _ | _ | b | n | s | xs | fs
    case arr => exact absurd hbody (hb xs)
    all_goals simp [Part000.getLatestPost, wpApiJson, h, hbody]

/-- Witness for `getLatestPost_spec`: the non-empty-array case at the
all-successful world. -/
theorem getLatestPost_spec_witness :
    oAllOk.fetchPosts.ok = true
    ∧ (Part000.getLatestPost oAllOk =
        (.ok (jobj [("id", .num 42), ("title", jobj [("rendered", .str "Best Cabs in Manchester")])]),
         [Call.fetchPosts])
      ∧ IndexJs.getLatestPost oAllOk =
        (.ok (jobj [("id", .num 42), ("title", jobj [("rendered", .str "Best Cabs in Manchester")])]),
         [Call.fetchPosts])) :=
  ⟨rfl, (getLatestPost_spec oAllOk rfl).2.1
    (jobj [("id", .num 42), ("title", jobj [("rendered", .str "Best Cabs in Manchester")])])
    .nil rfl⟩

/-- C5 counterexample: the inline variant's upload-media does not fail
when the response body lacks the identifier field.  With a successful
upload response whose body is the empty object, `src/index.js` returns
`undefined` successfully instead of raising an UploadError. -/
theorem uploadImageToWP_missing_id_counterexample :
    oNoUploadId.uploadMedia.ok = true
    ∧ oNoUploadId.uploadMedia.body = .obj .nil
    ∧ IndexJs.uploadImageToWP oNoUploadId (.fromBase64 "QUJD") "f.png" =
        (.ok .undefined, [Call.uploadMedia "f.png"]) :=
  ⟨rfl, rfl, rfl⟩

/-- C5 amended: both variants fail with the upload error when the HTTP
response is not successful.  On a successful response with an object
body, the URL-return variant returns a present truthy id, fails with
`Media upload missing id` when the id is present but falsy, and fails the
same way when the id is absent; the inline variant returns the id field
unchecked, `undefined` included, and never raises a missing-id error. -/
theorem uploadImageToWP_spec (o : Oracle) (b : Buffer) (fn : String) (ub : JSObj)
    (hb : o.uploadMedia.body = .obj ub) :
    (o.uploadMedia.ok = false →
        IndexJs.uploadImageToWP o b fn =
          (.error ("WP media error " ++ toString o.uploadMedia.status ++ ": " ++ o.uploadMedia.text),
           [Call.uploadMedia fn])
      ∧ Part000.uploadImageToWP o b fn =
          (.error ("WP media error " ++ toString o.uploadMedia.status ++ ": " ++ o.uploadMedia.text),
           [Call.uploadMedia fn]))
  ∧ (o.uploadMedia.ok = true →
      (∀ v, ub.lookup "id" = some v →
          IndexJs.uploadImageToWP o b fn = (.ok v, [Call.uploadMedia fn])
        ∧ (v.truthy = true →
            Part000.uploadImageToWP o b fn = (.ok v, [Call.uploadMedia fn]))
        ∧ (v.truthy = false →
            Part000.uploadImageToWP o b fn =
              (.error "Media upload missing id", [Call.uploadMedia fn])))
      ∧ (ub.lookup "id" = none →
          IndexJs.uploadImageToWP o b fn = (.ok .undefined, [Call.uploadMedia fn])
        ∧ Part000.uploadImageToWP o b fn =
            (.error "Media upload missing id", [Call.uploadMedia fn]))) := by
  refine ⟨?_, ?_⟩
  · intro hok
    constructor <;>
      simp [IndexJs.uploadImageToWP, Part000.uploadImageToWP, hok]
  · intro hok
    refine ⟨?_, ?_⟩
    · intro v hv
      refine ⟨?_, ?_, ?_⟩
      · simp [IndexJs.uploadImageToWP, hok, hb, JSVal.getField, hv]
      · intro ht; simp [Part000.uploadImageToWP, hok, hb, JSVal.getField, hv, ht]
      · intro ht; simp [Part000.uploadImageToWP, hok, hb, JSVal.getField, hv, ht]
    · intro hv
      constructor <;>
        simp [IndexJs.uploadImageToWP, Part000.uploadImageToWP, hok, hb,
          JSVal.getField, hv, JSVal.truthy]

/-- Witness for `uploadImageToWP_spec`: the successful upload with media
id 900 in both variants. -/
theorem uploadImageToWP_spec_witness :
    oAllOk.uploadMedia.ok = true
    ∧ IndexJs.uploadImageToWP oAllOk (.fromBase64 "QUJD") "f.png" =
        (.ok (.num 900), [Call.uploadMedia "f.png"])
    ∧ Part000.uploadImageToWP oAllOk (.fromBase64 "QUJD") "f.png" =
        (.ok (.num 900), [Call.uploadMedia "f.png"]) :=
  ⟨rfl,
   (((uploadImageToWP_spec oAllOk (.fromBase64 "QUJD") "f.png"
       (JSObj.cons "id" (.num 900) .nil) rfl).2 rfl).1 (.num 900) rfl).1,
   ((((uploadImageToWP_spec oAllOk (.fromBase64 "QUJD") "f.png"
       (JSObj.cons "id" (.num 900) .nil) rfl).2 rfl).1 (.num 900) rfl).2.1 rfl)⟩

/-- C6 counterexample: the inline variant does not substitute the
placeholder when the title field is absent.  With a fetched post that has
an id but no `title` field at all, `src/index.js` fails with a TypeError
before any generation call instead of building a prompt with the
placeholder. -/
theorem title_missing_counterexample :
    oNoTitle.fetchPosts.ok = true
    ∧ oNoTitle.fetchPosts.body = .arr (.cons (.obj (JSObj.cons "id" (.num 7) .nil)) .nil)
    ∧ IndexJs.runWorker oNoTitle =
        (.error ("Cannot read properties of undefined (reading " ++ "\x27" ++ "rendered" ++ "\x27" ++ ")"),
         [Call.fetchPosts]) :=
  ⟨rfl, rfl, rfl⟩

/-- C6 amended: in the URL-return variant a missing `title` field, a
missing `rendered` field and an empty-string rendered title all make the
generation call receive the prompt built from the literal `(no title)`
placeholder, and a non-empty rendered string title appears in the prompt
verbatim (each prompt template decomposes around its title).  In the
inline variant the same holds whenever the `title` field is present, but
a post without a `title` field makes the run fail with a TypeError
instead (see the counterexample). -/
theorem title_placeholder_spec (o : Oracle) (pf : JSObj) (rest : JSArr)
    (hfo : o.fetchPosts.ok = true)
    (hfb : o.fetchPosts.body = .arr (.cons (.obj pf) rest)) :
    (pf.lookup "title" = none →
        Call.genImage (Part000.promptFor "(no title)") ∈ (Part000.runWorker o).2
      ∧ IndexJs.runWorker o =
          (.error ("Cannot read properties of undefined (reading " ++ "\x27" ++ "rendered" ++ "\x27" ++ ")"),
           [Call.fetchPosts]))
  ∧ (∀ tf, pf.lookup "title" = some (.obj tf) →
      (tf.lookup "rendered" = none →
          Call.genImage (Part000.promptFor "(no title)") ∈ (Part000.runWorker o).2
        ∧ Call.genImage (IndexJs.promptFor "(no title)") ∈ (IndexJs.runWorker o).2)
    ∧ (tf.lookup "rendered" = some (.str "") →
          Call.genImage (Part000.promptFor "(no title)") ∈ (Part000.runWorker o).2
        ∧ Call.genImage (IndexJs.promptFor "(no title)") ∈ (IndexJs.runWorker o).2)
    ∧ (∀ s, tf.lookup "rendered" = some (.str s) → s ≠ "" →
          Call.genImage (Part000.promptFor s) ∈ (Part000.runWorker o).2
        ∧ Call.genImage (IndexJs.promptFor s) ∈ (IndexJs.runWorker o).2))
  ∧ (∀ s, ∃ l r, Part000.promptFor s = l ++ s ++ r)
  ∧ (∀ s, ∃ l r, IndexJs.promptFor s = l ++ s ++ r) := by
  have memP : ∀ s, Part000.titleOf pf = .str s →
      Call.genImage (Part000.promptFor s) ∈ (Part000.runWorker o).2 := by
    intro s hs
    obtain ⟨tl, htr⟩ := Part000.runWorker_gen_prefix o pf rest hfo hfb
    rw [hs] at htr
    simp [htr, JSVal.toDisplay]
  have memI : ∀ tf s, pf.lookup "title" = some (.obj tf) → IndexJs.titleOf tf = .str s →
      Call.genImage (IndexJs.promptFor s) ∈ (IndexJs.runWorker o).2 := by
    intro tf s htl hs
    obtain ⟨tl, htr⟩ := IndexJs.runWorker_gen_head o pf tf rest hfo hfb htl
    rw [hs] at htr
    simp [htr, JSVal.toDisplay]
  refine ⟨?_, ?_, ?_, ?_⟩
  · intro htn
    constructor
    · exact memP "(no title)" (by simp [Part000.titleOf, htn, JSVal.truthy])
    · have hfetch : IndexJs.getLatestPost o = (.ok (.obj pf), [Call.fetchPosts]) := by
        simp [IndexJs.getLatestPost, wpApiJson, hfo, hfb, JSVal.getField, JSVal.truthy,
              JSVal.getIndex, JSArr.get?, JSArr.length]
        omega
      simp [IndexJs.runWorker, hfetch, JSVal.getField, htn]
  · intro tf htl
    refine ⟨?_, ?_, ?_⟩
    · intro hrn
      constructor
      · exact memP "(no title)" (by
          simp [Part000.titleOf, htl, JSVal.truthy, JSVal.getField, hrn, Except.toOption])
      · exact memI tf "(no title)" htl (by simp [IndexJs.titleOf, hrn, JSVal.truthy])
    · intro hre
      constructor
      · exact memP "(no title)" (by
          simp [Part000.titleOf, htl, JSVal.truthy, JSVal.getField, hre, Except.toOption])
      · exact memI tf "(no title)" htl (by simp [IndexJs.titleOf, hre, JSVal.truthy])
    · intro s hrs hne
      constructor
      · exact memP s (by
          simp [Part000.titleOf, htl, JSVal.truthy, JSVal.getField, hrs, Except.toOption, hne])
      · exact memI tf s htl (by simp [IndexJs.titleOf, hrs, JSVal.truthy, hne])
  · intro s
    exact ⟨"Photo-realistic daytime image for a blog post titled \"",
      "\". Show a modern private hire (PHV) saloon (Toyota Prius, Skoda Octavia, Kia Ceed), right-hand drive, on a real Manchester UK street. No text, no people, no logos.",
      rfl⟩
  · intro s
    exact ⟨"Photo-realistic daytime image for a blog post titled \"",
      "\". Show a modern private hire (PHV) saloon (Toyota Prius, Skoda Octavia, Kia Ceed), RHD, on a Manchester UK street. No text, no people, no logos.",
      rfl⟩

/-- Witness for `title_placeholder_spec`: the placeholder prompt for a
title-less post and the verbatim prompt for the concrete scenario's
title. -/
theorem title_placeholder_spec_witness :
    Call.genImage (Part000.promptFor "(no title)") ∈ (Part000.runWorker oNoTitle).2
    ∧ Call.genImage (IndexJs.promptFor "Best Cabs in Manchester") ∈ (IndexJs.runWorker oAllOk).2 :=
  ⟨(title_placeholder_spec oNoTitle (JSObj.cons "id" (.num 7) .nil) .nil rfl rfl).1 rfl |>.1,
   (((title_placeholder_spec oAllOk
       (JSObj.cons "id" (.num 42) (JSObj.cons "title"
         (.obj (JSObj.cons "rendered" (.str "Best Cabs in Manchester") JSObj.nil)) JSObj.nil))
       .nil rfl rfl).2.1
       (JSObj.cons "rendered" (.str "Best Cabs in Manchester") JSObj.nil) rfl).2.2
       "Best Cabs in Manchester" rfl (by decide)).2⟩

/-- C7 counterexample: the URL-return client does not perform a second
GET whenever the URL field is present.  With a successful generation
response whose body carries `data[0].url` present but equal to the empty
string, it throws the GenerationError `OpenAI response missing image URL`
and the trace shows no download call. -/
theorem callOpenAIImage_empty_url_counterexample :
    oEmptyUrl.genImage.ok = true
    ∧ oEmptyUrl.genImage.body =
        .obj (JSObj.cons "data"
          (.arr (.cons (.obj (JSObj.cons "url" (.str "") .nil)) .nil)) .nil)
    ∧ Part000.callOpenAIImage oEmptyUrl "p" =
        (.error "OpenAI response missing image URL", [Call.genImage "p"]) :=
  ⟨rfl, rfl, rfl⟩

/-- C7 amended: in the URL-return variant, when the initial call
succeeds: a `null` response body fails with a TypeError; a body whose
`data[0].url` chain yields no truthy value (the field absent, or falsy
such as the empty string) fails with the GenerationError `OpenAI response
missing image URL` and performs no second GET; otherwise the client
performs a second GET against that URL, fails with the DownloadError when
that fetch is not successful, and returns the downloaded body bytes. -/
theorem callOpenAIImage_url_variant_spec (o : Oracle) (pr : String)
    (h : o.genImage.ok = true) :
    (o.genImage.body = .null →
        Part000.callOpenAIImage o pr =
          (.error ("Cannot read properties of null (reading " ++ "\x27" ++ "data" ++ "\x27" ++ ")"),
           [Call.genImage pr]))
  ∧ (o.genImage.body ≠ .null → o.genImage.body ≠ .undefined →
      Part000.imageUrl o.genImage.body = none →
        Part000.callOpenAIImage o pr =
          (.error "OpenAI response missing image URL", [Call.genImage pr]))
  ∧ (∀ u, Part000.imageUrl o.genImage.body = some u →
      ((o.download u).ok = false →
          Part000.callOpenAIImage o pr =
            (.error ("Failed to download image from OpenAI URL: " ++ toString (o.download u).status),
             [Call.genImage pr, Call.download u]))
    ∧ ((o.download u).ok = true →
          Part000.callOpenAIImage o pr =
            (.ok (Buffer.fromArrayBuffer (o.download u).text),
             [Call.genImage pr, Call.download u]))) := by
  refine ⟨?_, ?_, ?_⟩
  · intro hbody
    simp [Part000.callOpenAIImage, h, hbody, JSVal.getField]
  · intro hnn hnu hnone
    obtain ⟨d1, hd⟩ : ∃ d1, o.genImage.body.getField "data" = .ok d1 := by
      rcases hbody : o.genImage.body with _ | _ | b | n | s | xs | fs <;>
        simp_all [JSVal.getField]
    unfold Part000.imageUrl at hnone
    rw [hd] at hnone
    unfold Part000.callOpenAIImage
    cases ht1 : d1.truthy with
    | false => simp [h, hd, ht1]
    | true =>
      simp only [ht1] at hnone
      obtain ⟨d2, hi⟩ : ∃ d2, d1.getIndex 0 = .ok d2 := by
        rcases d1 with _ | _ | b | n | s | xs | fs <;>
          simp_all [JSVal.truthy, JSVal.getIndex]
      rw [hi] at hnone
      cases ht2 : d2.truthy with
      | false => simp [h, hd, ht1, hi, ht2]
      | true =>
        simp only [ht2] at hnone
        obtain ⟨d3, hu⟩ : ∃ d3, d2.getField "url" = .ok d3 := by
          rcases d2 with _ | _ | b | n | s | xs | fs <;>
            simp_all [JSVal.truthy, JSVal.getField]
        rw [hu] at hnone
        cases ht3 : d3.truthy with
        | false => simp [h, hd, ht1, hi, ht2, hu, ht3]
        | true => simp [ht3] at hnone
  · intro u hu
    have hc := Part000.callOpenAIImage_of_url o pr u h hu
    constructor <;> intro hdl <;> rw [hdl] at hc <;> simpa using hc

/-- Witness for `callOpenAIImage_url_variant_spec`: the null-body failure
and the successful two-step download. -/
theorem callOpenAIImage_url_variant_spec_witness :
    oNullGenBody.genImage.ok = true
    ∧ Part000.callOpenAIImage oNullGenBody "p" =
        (.error ("Cannot read properties of null (reading " ++ "\x27" ++ "data" ++ "\x27" ++ ")"),
         [Call.genImage "p"])
    ∧ Part000.callOpenAIImage oAllOk "p" =
        (.ok (Buffer.fromArrayBuffer "PNGBYTES"),
         [Call.genImage "p", Call.download "https://img.example/x.png"]) :=
  ⟨rfl,
   (callOpenAIImage_url_variant_spec oNullGenBody "p" rfl).1 rfl,
   ((callOpenAIImage_url_variant_spec oAllOk "p" rfl).2.2
     "https://img.example/x.png" rfl).2 rfl⟩

/-- C8: every pipeline error propagates unmodified to the trigger
listener: whenever either variant's `runWorker` fails with message `e`
and trace `t`, the listener's response to a correctly authenticated
`/run` request is exactly status 500 with plain body `e` (no
Content-Type header set) and the unchanged trace `t` — nothing retried,
suppressed or wrapped. -/
theorem pipeline_error_propagation (ws : String) (o : Oracle) :
    (∀ e t, IndexJs.runWorker o = (.error e, t) →
       IndexJs.server ws o "/run" (some ws) = (⟨500, none, e⟩, t))
    ∧ (∀ e t, Part000.runWorker o = (.error e, t) →
       Part000.server ws o "/run" (some ws) = (⟨500, none, e⟩, t)) := by
  constructor <;> intro e t h <;> simp [IndexJs.server, Part000.server, h]

/-- Witness for `pipeline_error_propagation`: the world whose fetch call
answers 503. -/
theorem pipeline_error_propagation_witness :
    IndexJs.server "changeme" oFetchFail "/run" (some "changeme") =
      (⟨500, none, "WP API GET /wp-json/wp/v2/posts?per_page=1&orderby=date&order=desc 503: unavailable"⟩,
       [Call.fetchPosts])
    ∧ Part000.server "changeme" oFetchFail "/run" (some "changeme") =
      (⟨500, none, "WP API GET /wp-json/wp/v2/posts?per_page=1&orderby=date&order=desc 503: unavailable"⟩,
       [Call.fetchPosts]) :=
  ⟨(pipeline_error_propagation "changeme" oFetchFail).1 _ _ rfl,
   (pipeline_error_propagation "changeme" oFetchFail).2 _ _ rfl⟩

/-- C9: every RunResult either variant's orchestrator returns has its
`ok` field equal to the literal `true`: no execution path returns a
RunResult with `ok` false, so failure is signalled only by a thrown
error, never by a returned result. -/
theorem runWorker_ok_field_constant (o : Oracle) :
    (∀ r t, IndexJs.runWorker o = (.ok r, t) → r.ok = true)
    ∧ (∀ r t, Part000.runWorker o = (.ok r, t) → r.ok = true) := by
  constructor
  · intro r t h
    rcases IndexJs.runWorker_case_split o with ⟨e, he⟩ | ⟨e, pr, hg, he⟩ |
      ⟨e, pr, fn, hg, hup, he⟩ | ⟨pr, fn, pid, mid, hg, hup, hcase⟩
    · rw [he] at h; simp at h
    · rw [he] at h; simp at h
    · rw [he] at h; simp at h
    · rcases hcase with ⟨hsf, e, he⟩ | ⟨hsf, he⟩
      · rw [he] at h; simp at h
      · rw [he] at h
        simp only [Prod.mk.injEq, Except.ok.injEq] at h
        rw [← h.1]
  · intro r t h
    rcases Part000.runWorker_cases o with ⟨e, he⟩ | ⟨e, pr, hg, he⟩ |
      ⟨e, pr, u, hg, hd, he⟩ | ⟨e, pr, u, fn, hg, hd, hup, he⟩ |
      ⟨pr, u, fn, pid, mid, hg, hd, hup, hcase⟩
    · rw [he] at h; simp at h
    · rw [he] at h; simp at h
    · rw [he] at h; simp at h
    · rw [he] at h; simp at h
    · rcases hcase with ⟨hsf, e, he⟩ | ⟨hsf, he⟩
      · rw [he] at h; simp at h
      · rw [he] at h
        simp only [Prod.mk.injEq, Except.ok.injEq] at h
        rw [← h.1]

/-- Witness for `runWorker_ok_field_constant`: the all-successful world's
result. -/
theorem runWorker_ok_field_constant_witness :
    IndexJs.runWorker oAllOk =
      (.ok ⟨true, .num 42, .num 900⟩,
       [Call.fetchPosts,
        Call.genImage (IndexJs.promptFor "Best Cabs in Manchester"),
        Call.uploadMedia "ai-taxi-1700000000000.png",
        Call.setFeatured (.num 42) (.num 900)])
    ∧ (RunResult.mk true (.num 42) (.num 900)).ok = true :=
  ⟨rfl, (runWorker_ok_field_constant oAllOk).1 ⟨true, .num 42, .num 900⟩
    [Call.fetchPosts,
     Call.genImage (IndexJs.promptFor "Best Cabs in Manchester"),
     Call.uploadMedia "ai-taxi-1700000000000.png",
     Call.setFeatured (.num 42) (.num 900)] rfl⟩

/-- C10: the secret gate applies only to the exact pathname `/run`: for
every other pathname — `/run/` with a trailing slash and case variants
such as `/Run` included — both listeners respond with status 200 and the
static banner text, with an empty trace: no secret comparison outcome can
matter and the pipeline is not invoked. -/
theorem non_run_path_banner (ws : String) (o : Oracle) (p : String) (sp : Option String)
    (h : p ≠ "/run") :
    IndexJs.server ws o p sp =
      (⟨200, some "text/plain", "AI Image Worker running. Use /run?secret=YOUR_SECRET"⟩, [])
    ∧ Part000.server ws o p sp =
      (⟨200, some "text/plain", "AI Image Worker running. Use /run?secret=YOUR_SECRET"⟩, []) := by
  constructor <;> simp [IndexJs.server, Part000.server, h]

/-- Witness for `non_run_path_banner`: the trailing-slash and changed-case
pathnames. -/
theorem non_run_path_banner_witness :
    ("/run/" ≠ "/run"
      ∧ IndexJs.server "changeme" oAllOk "/run/" (some "changeme") =
          (⟨200, some "text/plain", "AI Image Worker running. Use /run?secret=YOUR_SECRET"⟩, []))
    ∧ ("/Run" ≠ "/run"
      ∧ Part000.server "changeme" oAllOk "/Run" (some "changeme") =
          (⟨200, some "text/plain", "AI Image Worker running. Use /run?secret=YOUR_SECRET"⟩, [])) :=
  ⟨⟨by decide, (non_run_path_banner "changeme" oAllOk "/run/" (some "changeme") (by decide)).1⟩,
   ⟨by decide, (non_run_path_banner "changeme" oAllOk "/Run" (some "changeme") (by decide)).2⟩⟩
